import Mathlib

/-!
Verification of the Kasanova dApp SDK detection module.

The repository contains two versions of the detection module:
  * `src/unnamed/part_001` — the richer version (timer cancellation in
    `cleanup`, post-registration presence re-check, shape validation of
    EIP-6963 announcements, duration-bearing error messages);
  * `src/src/detect.ts` — a simpler version lacking all of those.

We give a shallow embedding of both.  The browser environment is modelled
explicitly: the global object (`window`) either does not exist or carries
three optional provider slots.  Injected provider objects are modelled by
the observable capabilities the code tests (`requestAccounts`, `getAccounts`,
`on`, `request` methods and the `isKasanova` flag).

Each asynchronous wait primitive is modelled as a state machine:
a synchronous start phase (the body of the `Promise` executor, reading the
environment at its distinct observation instants) followed by a step
function applied to the events the event loop delivers (initialization
events, EIP-6963 announcements, timeout-timer firing).  The state records
the code's `settled` flag, whether the init/announce listeners are still
attached, whether a timeout timer is currently scheduled, and the promise's
outcome (with error messages built exactly as the source builds them).
-/

/-- A JavaScript object that may sit in a provider slot, abstracted to the
capabilities the detection code observes: presence of the methods tested by
the shape checks and the value of the `isKasanova` property (`none` models
an absent/undefined property). -/
structure Obj where
  id : Nat
  hasRequestAccounts : Bool
  hasGetAccounts : Bool
  hasOn : Bool
  hasRequest : Bool
  isKasanova : Option Bool
deriving DecidableEq, Repr

/-- The global object's provider slots: `window.kasanova`, `window.kasware`,
`window.ethereum`; `none` models an undefined slot. -/
structure Window where
  kasanova : Option Obj
  kasware : Option Obj
  ethereum : Option Obj
deriving DecidableEq, Repr

/-- The global environment: either no `window` (non-browser context) or a
`window` with its three slots. -/
inductive GlobalEnv where
  | noWindow : GlobalEnv
  | window : Window → GlobalEnv
deriving DecidableEq, Repr

/-- Read `window.kasanova` (undefined when there is no window). -/
def kasanovaSlot : GlobalEnv → Option Obj
  | .noWindow => none
  | .window w => w.kasanova

/-- Read `window.kasware` (undefined when there is no window). -/
def kaswareSlot : GlobalEnv → Option Obj
  | .noWindow => none
  | .window w => w.kasware

/-- Read `window.ethereum` (undefined when there is no window). -/
def ethereumSlot : GlobalEnv → Option Obj
  | .noWindow => none
  | .window w => w.ethereum

/-- `isKasanova()`: `typeof window !== 'undefined' && typeof window.kasanova
!== 'undefined'` (identical in both versions of the module). -/
def isKasanova : GlobalEnv → Bool
  | .noWindow => false
  | .window w => w.kasanova.isSome

/-- `isKaswareAvailable()`: `typeof window !== 'undefined' && typeof
window.kasware !== 'undefined'` (identical in both versions). -/
def isKaswareAvailable : GlobalEnv → Bool
  | .noWindow => false
  | .window w => w.kasware.isSome

/-- `isKasanovaL2Available()`: `typeof window !== 'undefined' && typeof
window.ethereum !== 'undefined' && window.ethereum.isKasanova === true`
(identical in both versions). -/
def isKasanovaL2Available : GlobalEnv → Bool
  | .noWindow => false
  | .window w =>
    match w.ethereum with
    | none => false
    | some o => o.isKasanova == some true

/-- `getKasanova()`: the namespace object or null. -/
def getKasanova (g : GlobalEnv) : Option Obj :=
  if isKasanova g then kasanovaSlot g else none

/-- `getKaswareProvider()`: the L1 provider or null. -/
def getKaswareProvider (g : GlobalEnv) : Option Obj :=
  if isKaswareAvailable g then kaswareSlot g else none

/-- `getKasanovaL2Provider()`: the L2 provider or null. -/
def getKasanovaL2Provider (g : GlobalEnv) : Option Obj :=
  if isKasanovaL2Available g then ethereumSlot g else none

/-- `hasKaswareShape(obj)`: `obj` is a non-null object with `requestAccounts`,
`getAccounts` and `on` methods; `none` models any non-object input. -/
def hasKaswareShape : Option Obj → Bool
  | none => false
  | some o => o.hasRequestAccounts && o.hasGetAccounts && o.hasOn

/-- `hasEthereumProviderShape(obj)`: `obj` is a non-null object with `request`
and `on` methods. -/
def hasEthereumProviderShape : Option Obj → Bool
  | none => false
  | some o => o.hasRequest && o.hasOn

/-- The string `typeof slot` evaluates to in the error-message templates. -/
def typeofSlot : Option Obj → String
  | none => "undefined"
  | some _ => "object"

/-- How JavaScript string interpolation renders the `isKasanova` property. -/
def renderFlag : Option Bool → String
  | none => "undefined"
  | some true => "true"
  | some false => "false"

/-- Settlement of the wait promise: resolution value (the resolved object, or
`none` when the code resolves with an undefined value) or rejection message. -/
inductive Settlement where
  | resolvedWith : Option Obj → Settlement
  | rejectedWith : String → Settlement
deriving DecidableEq, Repr

/-- The observable state of one in-flight wait: the code's `settled` flag,
whether the event listeners registered by the call are still attached
(each version adds and removes its two listeners together), whether a
timeout timer is currently scheduled, and the promise's outcome so far. -/
structure WaitSt where
  settled : Bool
  listeners : Bool
  timerScheduled : Bool
  result : Option Settlement
deriving DecidableEq, Repr

/-- An occurrence the event loop can deliver to a pending wait: an L1
initialization event (`kasware#initialized` or `kasanova:ready`, handled
identically), `ethereum#initialized`, an `eip6963:announceProvider` event
carrying `detail.info.rdns` and `detail.provider`, or the firing of the
scheduled timeout timer.  Handlers that read the globals receive the
environment as it stands when they run. -/
inductive Ev where
  | l1init : GlobalEnv → Ev
  | ethInit : GlobalEnv → Ev
  | announce : Option String → Option Obj → Ev
  | timerFire : GlobalEnv → Ev
deriving DecidableEq, Repr

/-- The state after an immediate (pre-listener) resolution: the executor
returns before declaring `settled`, registering listeners or scheduling the
timer. -/
def immediateResolved (o : Obj) : WaitSt :=
  { settled := false, listeners := false, timerScheduled := false,
    result := some (.resolvedWith (some o)) }

/-- The state right after listener registration, before the timer exists. -/
def pendingNoTimer : WaitSt :=
  { settled := false, listeners := true, timerScheduled := false, result := none }

namespace Part001

/-- Rejection message of `waitForKasware`'s `onInit` handler in
`src/unnamed/part_001`. -/
def l1InitInvalidMsg : String :=
  "Provider initialization event fired but window.kasware does not implement the expected API. " ++
    "Ensure Kasanova or KasWare is properly installed."

/-- Rejection message of `waitForKasware`'s timeout handler in
`src/unnamed/part_001`, interpolating the timeout and `typeof window.kasware`. -/
def l1TimeoutMsg (timeoutMs : Nat) (slot : Option Obj) : String :=
  "Kasanova wallet not detected after " ++ toString timeoutMs ++ "ms. " ++
    "window.kasware is " ++ typeofSlot slot ++ ". " ++
    "Is the dApp open inside Kasanova?"

/-- Rejection message of `waitForKasanovaL2`'s `onInit` handler in
`src/unnamed/part_001`. -/
def l2InitInvalidMsg (slot : Option Obj) : String :=
  "ethereum#initialized fired but window.ethereum.isKasanova is not true. " ++
    "window.ethereum is " ++ typeofSlot slot ++
    (match slot with
     | some o => ", isKasanova=" ++ renderFlag o.isKasanova
     | none => "") ++
    ". Another wallet extension may have claimed window.ethereum."

/-- Rejection message of `waitForKasanovaL2`'s timeout handler in
`src/unnamed/part_001`. -/
def l2TimeoutMsg (timeoutMs : Nat) (slot : Option Obj) : String :=
  "Kasanova L2 provider not detected after " ++ toString timeoutMs ++ "ms. " ++
    "window.ethereum is " ++ typeofSlot slot ++
    (match slot with
     | some o => ", isKasanova=" ++ renderFlag o.isKasanova
     | none => "") ++
    "."

/-- The `onInit` handler of `waitForKasware` (part_001): if not settled,
settle, run `cleanup` (clear the timer, remove both listeners), then resolve
with `window.kasware` if it passes the shape check, else reject. -/
def onInitKasware (g : GlobalEnv) (s : WaitSt) : WaitSt :=
  if s.settled then s
  else
    let s' : WaitSt := { s with settled := true, listeners := false, timerScheduled := false }
    match kaswareSlot g with
    | some o =>
      if hasKaswareShape (some o) then { s' with result := some (.resolvedWith (some o)) }
      else { s' with result := some (.rejectedWith l1InitInvalidMsg) }
    | none => { s' with result := some (.rejectedWith l1InitInvalidMsg) }

/-- The synchronous body of `waitForKasware` (part_001).  `g0` is the
environment at the initial presence check, `g1` at the re-check performed
after listener registration (a mocked `addEventListener` may have changed
the globals in between). -/
def waitForKaswareStart (g0 g1 : GlobalEnv) : WaitSt :=
  match kaswareSlot g0 with
  | some o => immediateResolved o
  | none =>
    if isKaswareAvailable g1 && hasKaswareShape (kaswareSlot g1) then
      onInitKasware g1 pendingNoTimer
    else
      { pendingNoTimer with timerScheduled := true }

/-- One event-loop step of a pending `waitForKasware` (part_001) call.  The
init handler runs only while its listeners are attached; the timer callback
runs only if the timer is still scheduled (firing consumes it, and a fire
after settlement is the no-op guarded by `settled`). -/
def waitForKaswareStep (timeoutMs : Nat) (s : WaitSt) (e : Ev) : WaitSt :=
  match e with
  | .l1init g => if s.listeners then onInitKasware g s else s
  | .timerFire g =>
    if s.timerScheduled then
      if s.settled then { s with timerScheduled := false }
      else
        { s with settled := true, listeners := false, timerScheduled := false, result := some (.rejectedWith (l1TimeoutMsg timeoutMs (kaswareSlot g))) }
    else s
  | _ => s

/-- A full execution of `waitForKasware` (part_001): the synchronous start
phase followed by the delivered events. -/
def waitForKaswareRun (timeoutMs : Nat) (g0 g1 : GlobalEnv) (evs : List Ev) : WaitSt :=
  evs.foldl (waitForKaswareStep timeoutMs) (waitForKaswareStart g0 g1)

/-- The `onInit` handler of `waitForKasanovaL2` (part_001): settle, clean up,
resolve with `window.ethereum` when `isKasanovaL2Available()`, else reject. -/
def onInitL2 (g : GlobalEnv) (s : WaitSt) : WaitSt :=
  if s.settled then s
  else
    let s' : WaitSt := { s with settled := true, listeners := false, timerScheduled := false }
    match ethereumSlot g with
    | some o =>
      if o.isKasanova == some true then { s' with result := some (.resolvedWith (some o)) }
      else { s' with result := some (.rejectedWith (l2InitInvalidMsg (some o))) }
    | none => { s' with result := some (.rejectedWith (l2InitInvalidMsg none)) }

/-- The `onAnnounce` handler of `waitForKasanovaL2` (part_001): only
`rdns === 'app.kasanova'` payloads are considered; a payload whose provider
is absent or fails the shape check is ignored (warn and return, no
settlement, no cleanup); a valid provider settles and resolves. -/
def onAnnounceL2 (rdns : Option String) (provider : Option Obj) (s : WaitSt) : WaitSt :=
  if rdns == some "app.kasanova" then
    if s.settled then s
    else
      match provider with
      | some o =>
        if hasEthereumProviderShape (some o) then
          { s with settled := true, listeners := false, timerScheduled := false, result := some (.resolvedWith (some o)) }
        else s
      | none => s
  else s

/-- One event-loop step of a pending `waitForKasanovaL2` (part_001) call. -/
def waitForL2Step (timeoutMs : Nat) (s : WaitSt) (e : Ev) : WaitSt :=
  match e with
  | .ethInit g => if s.listeners then onInitL2 g s else s
  | .announce rdns provider => if s.listeners then onAnnounceL2 rdns provider s else s
  | .timerFire g =>
    if s.timerScheduled then
      if s.settled then { s with timerScheduled := false }
      else
        { s with settled := true, listeners := false, timerScheduled := false, result := some (.rejectedWith (l2TimeoutMsg timeoutMs (ethereumSlot g))) }
    else s
  | _ => s

/-- The synchronous body of `waitForKasanovaL2` (part_001).  `g0` is the
environment at the initial check, `g1` at the post-registration re-check.
`syncEvents` are the events delivered synchronously while
`window.dispatchEvent(new Event('eip6963:requestProvider'))` runs (a
registered wallet may answer the solicitation synchronously); after the
dispatch returns, `timer = setTimeout(...)` schedules the timer
unconditionally — even if a synchronous answer already settled the wait. -/
def waitForL2Start (timeoutMs : Nat) (g0 g1 : GlobalEnv) (syncEvents : List Ev) : WaitSt :=
  match ethereumSlot g0 with
  | some o =>
    if o.isKasanova == some true then immediateResolved o
    else waitForL2StartAux timeoutMs g1 syncEvents
  | none => waitForL2StartAux timeoutMs g1 syncEvents
where
  /-- The part of the executor after the failed initial check: register both
  listeners, re-check, dispatch the solicitation, schedule the timer. -/
  waitForL2StartAux (timeoutMs : Nat) (g1 : GlobalEnv) (syncEvents : List Ev) : WaitSt :=
    if isKasanovaL2Available g1 then onInitL2 g1 pendingNoTimer
    else
      let s1 := syncEvents.foldl (waitForL2Step timeoutMs) pendingNoTimer
      { s1 with timerScheduled := true }

/-- A full execution of `waitForKasanovaL2` (part_001). -/
def waitForL2Run (timeoutMs : Nat) (g0 g1 : GlobalEnv) (syncEvents evs : List Ev) : WaitSt :=
  evs.foldl (waitForL2Step timeoutMs) (waitForL2Start timeoutMs g0 g1 syncEvents)

end Part001

namespace DetectTs

/-- Rejection message of `waitForKasware`'s `onInit` handler in
`src/src/detect.ts`. -/
def l1InitInvalidMsg : String :=
  "Provider initialization event fired but window.kasware is not set"

/-- Rejection message of `waitForKasware`'s timeout handler in
`src/src/detect.ts` (fixed text, no interpolation). -/
def l1TimeoutMsg : String :=
  "Kasanova wallet not detected. Is the dApp open inside Kasanova?"

/-- Rejection message of `waitForKasanovaL2`'s `onInit` handler in
`src/src/detect.ts`. -/
def l2InitInvalidMsg : String :=
  "Provider initialized but isKasanova flag not set"

/-- Rejection message of `waitForKasanovaL2`'s timeout handler in
`src/src/detect.ts`. -/
def l2TimeoutMsg : String :=
  "Kasanova L2 provider not detected."

/-- The `onInit` handler of `waitForKasware` (detect.ts): if not settled,
settle, run `cleanup` (which removes both listeners but does NOT clear the
timer), then resolve with `window.kasware` if `isKaswareAvailable()`, else
reject.  No shape check is performed. -/
def onInitKasware (g : GlobalEnv) (s : WaitSt) : WaitSt :=
  if s.settled then s
  else
    let s' : WaitSt := { s with settled := true, listeners := false }
    match kaswareSlot g with
    | some o => { s' with result := some (.resolvedWith (some o)) }
    | none => { s' with result := some (.rejectedWith l1InitInvalidMsg) }

/-- The synchronous body of `waitForKasware` (detect.ts): initial presence
check, listener registration, `setTimeout` — no post-registration re-check. -/
def waitForKaswareStart (g0 : GlobalEnv) : WaitSt :=
  match kaswareSlot g0 with
  | some o => immediateResolved o
  | none => { pendingNoTimer with timerScheduled := true }

/-- One event-loop step of a pending `waitForKasware` (detect.ts) call.
The timeout callback runs `cleanup` on settlement but, since `cleanup`
never clears the timer, an event-driven settlement leaves the timer
scheduled; when it eventually fires the `settled` guard makes it a no-op. -/
def waitForKaswareStep (s : WaitSt) (e : Ev) : WaitSt :=
  match e with
  | .l1init g => if s.listeners then onInitKasware g s else s
  | .timerFire _ =>
    if s.timerScheduled then
      if s.settled then { s with timerScheduled := false }
      else
        { s with settled := true, listeners := false, timerScheduled := false, result := some (.rejectedWith l1TimeoutMsg) }
    else s
  | _ => s

/-- A full execution of `waitForKasware` (detect.ts). -/
def waitForKaswareRun (g0 : GlobalEnv) (evs : List Ev) : WaitSt :=
  evs.foldl waitForKaswareStep (waitForKaswareStart g0)

/-- The `onInit` handler of `waitForKasanovaL2` (detect.ts). -/
def onInitL2 (g : GlobalEnv) (s : WaitSt) : WaitSt :=
  if s.settled then s
  else
    let s' : WaitSt := { s with settled := true, listeners := false }
    match ethereumSlot g with
    | some o =>
      if o.isKasanova == some true then { s' with result := some (.resolvedWith (some o)) }
      else { s' with result := some (.rejectedWith l2InitInvalidMsg) }
    | none => { s' with result := some (.rejectedWith l2InitInvalidMsg) }

/-- The `onAnnounce` handler of `waitForKasanovaL2` (detect.ts): any
`rdns === 'app.kasanova'` payload settles and resolves with
`event.detail.provider`, with no shape validation — even an absent or
method-less provider is resolved with. -/
def onAnnounceL2 (rdns : Option String) (provider : Option Obj) (s : WaitSt) : WaitSt :=
  if rdns == some "app.kasanova" then
    if s.settled then s
    else
      { s with settled := true, listeners := false, result := some (.resolvedWith provider) }
  else s

/-- One event-loop step of a pending `waitForKasanovaL2` (detect.ts) call. -/
def waitForL2Step (s : WaitSt) (e : Ev) : WaitSt :=
  match e with
  | .ethInit g => if s.listeners then onInitL2 g s else s
  | .announce rdns provider => if s.listeners then onAnnounceL2 rdns provider s else s
  | .timerFire _ =>
    if s.timerScheduled then
      if s.settled then { s with timerScheduled := false }
      else
        { s with settled := true, listeners := false, timerScheduled := false, result := some (.rejectedWith l2TimeoutMsg) }
    else s
  | _ => s

/-- The synchronous body of `waitForKasanovaL2` (detect.ts): initial check,
listener registration, solicitation dispatch (whose synchronous responses
are `syncEvents`), then `setTimeout` — scheduled unconditionally, and no
post-registration re-check. -/
def waitForL2Start (g0 : GlobalEnv) (syncEvents : List Ev) : WaitSt :=
  match ethereumSlot g0 with
  | some o =>
    if o.isKasanova == some true then immediateResolved o
    else
      let s1 := syncEvents.foldl waitForL2Step pendingNoTimer
      { s1 with timerScheduled := true }
  | none =>
    let s1 := syncEvents.foldl waitForL2Step pendingNoTimer
    { s1 with timerScheduled := true }

/-- A full execution of `waitForKasanovaL2` (detect.ts). -/
def waitForL2Run (g0 : GlobalEnv) (syncEvents evs : List Ev) : WaitSt :=
  evs.foldl waitForL2Step (waitForL2Start g0 syncEvents)

end DetectTs

/-- Containment of `sub` in `msg`, as a substring occurrence. -/
def strContains (msg sub : String) : Prop := sub.data <:+: msg.data

instance (msg sub : String) : Decidable (strContains msg sub) :=
  inferInstanceAs (Decidable (sub.data <:+: msg.data))

/-- No-leak invariant: once the wait has settled (`settled` flag raised or
promise outcome fixed), both listeners are removed and no timeout timer
remains scheduled. -/
def NoLeak (s : WaitSt) : Prop :=
  (s.settled = true ∨ s.result.isSome = true) → (s.listeners = false ∧ s.timerScheduled = false)

/-- One-shot invariant: once the wait has settled the listeners are gone,
and any timer still scheduled past settlement is guarded by the `settled`
flag (its firing cannot change the outcome). -/
def OneShot (s : WaitSt) : Prop :=
  ((s.settled = true ∨ s.result.isSome = true) → s.listeners = false)
  ∧ (s.result.isSome = true → (s.settled = true ∨ s.timerScheduled = false))

/-- States produced by the event-loop steps record settlement in the
`settled` flag whenever the promise has an outcome. -/
def SettledLink (s : WaitSt) : Prop := s.result.isSome = true → s.settled = true

/-- A step function that either leaves the state alone, lets a still-scheduled
timer fire as a `settled`-guarded no-op, or settles an unsettled wait by
raising `settled`, removing the listeners and fixing the outcome. -/
def SettleStep (f : WaitSt → Ev → WaitSt) : Prop :=
  ∀ s e, f s e = s
    ∨ (s.settled = true ∧ s.timerScheduled = true ∧ f s e = { s with timerScheduled := false })
    ∨ (s.settled = false ∧ (s.listeners = true ∨ s.timerScheduled = true) ∧
        ∃ b r, f s e = { s with settled := true, listeners := false, timerScheduled := b, result := some r })

/-- A `SettleStep` that additionally cancels the timer on settlement. -/
def CleanSettleStep (f : WaitSt → Ev → WaitSt) : Prop :=
  ∀ s e, f s e = s
    ∨ (s.settled = true ∧ s.timerScheduled = true ∧ f s e = { s with timerScheduled := false })
    ∨ (s.settled = false ∧ (s.listeners = true ∨ s.timerScheduled = true) ∧
        ∃ r, f s e = { s with settled := true, listeners := false, timerScheduled := false, result := some r })

/-- The canonical pending state: listeners attached, timer scheduled. -/
def pendingWithTimer : WaitSt :=
  { settled := false, listeners := true, timerScheduled := true, result := none }

/-- A provider object with the full KasWare shape. -/
def goodKasware : Obj :=
  { id := 1, hasRequestAccounts := true, hasGetAccounts := true, hasOn := true,
    hasRequest := false, isKasanova := none }

/-- A provider object with the full EIP-1193 shape and the Kasanova flag. -/
def goodL2 : Obj :=
  { id := 2, hasRequestAccounts := false, hasGetAccounts := false, hasOn := true,
    hasRequest := true, isKasanova := some true }

/-- An announced provider missing the required `request` method. -/
def badL2 : Obj :=
  { id := 3, hasRequestAccounts := false, hasGetAccounts := false, hasOn := true,
    hasRequest := false, isKasanova := some true }

/-- A generic EIP-1193 provider whose `isKasanova` property is undefined. -/
def genericEth : Obj :=
  { id := 4, hasRequestAccounts := false, hasGetAccounts := false, hasOn := true,
    hasRequest := true, isKasanova := none }

/-- A window with no providers injected. -/
def emptyWindow : GlobalEnv := .window { kasanova := none, kasware := none, ethereum := none }

/-- A window where only `window.kasware` is populated, with a valid shape. -/
def kaswareWindow : GlobalEnv := .window { kasanova := none, kasware := some goodKasware, ethereum := none }

/-- A window where `window.ethereum` is the Kasanova L2 provider. -/
def l2Window : GlobalEnv := .window { kasanova := none, kasware := none, ethereum := some goodL2 }

/-- A window where `window.ethereum` is a generic non-Kasanova provider. -/
def genericEthWindow : GlobalEnv := .window { kasanova := none, kasware := none, ethereum := some genericEth }

theorem CleanSettleStep.toSettleStep {f : WaitSt → Ev → WaitSt}
    (hf : CleanSettleStep f) : SettleStep f := by
  intro s e
  rcases hf s e with h | h | ⟨h1, h2, r, h3⟩
  · exact Or.inl h
  · exact Or.inr (Or.inl h)
  · exact Or.inr (Or.inr ⟨h1, h2, false, r, h3⟩)

theorem p1_kasware_cleanSettleStep (t : Nat) :
    CleanSettleStep (Part001.waitForKaswareStep t) := by
  intro s e
  obtain ⟨st, l, tm, r⟩ := s
  cases e with
  | l1init g =>
    cases l with
    | false => exact Or.inl rfl
    | true =>
      cases st with
      | true =>
        refine Or.inl ?_
        simp [Part001.waitForKaswareStep, Part001.onInitKasware]
      | false =>
        refine Or.inr (Or.inr ⟨rfl, Or.inl rfl, ?_⟩)
        simp only [Part001.waitForKaswareStep, Part001.onInitKasware]
        cases kaswareSlot g with
        | none => exact ⟨_, rfl⟩
        | some o =>
          by_cases hsh : hasKaswareShape (some o) = true
          · exact ⟨.resolvedWith (some o), by simp [hsh]⟩
          · exact ⟨.rejectedWith Part001.l1InitInvalidMsg, by simp [hsh]⟩
  | ethInit g => exact Or.inl rfl
  | announce rdns provider => exact Or.inl rfl
  | timerFire g =>
    cases tm with
    | false => exact Or.inl rfl
    | true =>
      cases st with
      | true => exact Or.inr (Or.inl ⟨rfl, rfl, by simp [Part001.waitForKaswareStep]⟩)
      | false =>
        exact Or.inr (Or.inr ⟨rfl, Or.inr rfl,
          .rejectedWith (Part001.l1TimeoutMsg t (kaswareSlot g)),
          by simp [Part001.waitForKaswareStep]⟩)

theorem p1_l2_cleanSettleStep (t : Nat) :
    CleanSettleStep (Part001.waitForL2Step t) := by
  intro s e
  obtain ⟨st, l, tm, r⟩ := s
  cases e with
  | l1init g => exact Or.inl rfl
  | ethInit g =>
    cases l with
    | false => exact Or.inl rfl
    | true =>
      cases st with
      | true =>
        refine Or.inl ?_
        simp [Part001.waitForL2Step, Part001.onInitL2]
      | false =>
        refine Or.inr (Or.inr ⟨rfl, Or.inl rfl, ?_⟩)
        simp only [Part001.waitForL2Step, Part001.onInitL2]
        cases hsl : ethereumSlot g with
        | none => exact ⟨.rejectedWith (Part001.l2InitInvalidMsg none), by simp⟩
        | some o =>
          by_cases hfl : (o.isKasanova == some true) = true
          · exact ⟨.resolvedWith (some o), by simp [hfl]⟩
          · exact ⟨.rejectedWith (Part001.l2InitInvalidMsg (some o)), by simp [hfl]⟩
  | announce rdns provider =>
    cases l with
    | false => exact Or.inl rfl
    | true =>
      by_cases hr : (rdns == some "app.kasanova") = true
      · cases st with
        | true =>
          refine Or.inl ?_
          simp [Part001.waitForL2Step, Part001.onAnnounceL2, hr]
        | false =>
          cases provider with
          | none =>
            refine Or.inl ?_
            simp [Part001.waitForL2Step, Part001.onAnnounceL2, hr]
          | some o =>
            by_cases hsh : hasEthereumProviderShape (some o) = true
            · refine Or.inr (Or.inr ⟨rfl, Or.inl rfl, .resolvedWith (some o), ?_⟩)
              simp [Part001.waitForL2Step, Part001.onAnnounceL2, hr, hsh]
            · refine Or.inl ?_
              simp [Part001.waitForL2Step, Part001.onAnnounceL2, hr, hsh]
      · refine Or.inl ?_
        simp [Part001.waitForL2Step, Part001.onAnnounceL2, hr]
  | timerFire g =>
    cases tm with
    | false => exact Or.inl rfl
    | true =>
      cases st with
      | true => exact Or.inr (Or.inl ⟨rfl, rfl, by simp [Part001.waitForL2Step]⟩)
      | false =>
        exact Or.inr (Or.inr ⟨rfl, Or.inr rfl,
          .rejectedWith (Part001.l2TimeoutMsg t (ethereumSlot g)),
          by simp [Part001.waitForL2Step]⟩)

theorem d_kasware_settleStep : SettleStep DetectTs.waitForKaswareStep := by
  intro s e
  obtain ⟨st, l, tm, r⟩ := s
  cases e with
  | l1init g =>
    cases l with
    | false => exact Or.inl rfl
    | true =>
      cases st with
      | true =>
        refine Or.inl ?_
        simp [DetectTs.waitForKaswareStep, DetectTs.onInitKasware]
      | false =>
        refine Or.inr (Or.inr ⟨rfl, Or.inl rfl, tm, ?_⟩)
        simp only [DetectTs.waitForKaswareStep, DetectTs.onInitKasware]
        cases kaswareSlot g with
        | none => exact ⟨.rejectedWith DetectTs.l1InitInvalidMsg, by simp⟩
        | some o => exact ⟨.resolvedWith (some o), by simp⟩
  | ethInit g => exact Or.inl rfl
  | announce rdns provider => exact Or.inl rfl
  | timerFire g =>
    cases tm with
    | false => exact Or.inl rfl
    | true =>
      cases st with
      | true => exact Or.inr (Or.inl ⟨rfl, rfl, by simp [DetectTs.waitForKaswareStep]⟩)
      | false =>
        exact Or.inr (Or.inr ⟨rfl, Or.inr rfl, false,
          .rejectedWith DetectTs.l1TimeoutMsg,
          by simp [DetectTs.waitForKaswareStep]⟩)

theorem d_l2_settleStep : SettleStep DetectTs.waitForL2Step := by
  intro s e
  obtain ⟨st, l, tm, r⟩ := s
  cases e with
  | l1init g => exact Or.inl rfl
  | ethInit g =>
    cases l with
    | false => exact Or.inl rfl
    | true =>
      cases st with
      | true =>
        refine Or.inl ?_
        simp [DetectTs.waitForL2Step, DetectTs.onInitL2]
      | false =>
        refine Or.inr (Or.inr ⟨rfl, Or.inl rfl, tm, ?_⟩)
        simp only [DetectTs.waitForL2Step, DetectTs.onInitL2]
        cases ethereumSlot g with
        | none => exact ⟨.rejectedWith DetectTs.l2InitInvalidMsg, by simp⟩
        | some o =>
          by_cases hfl : (o.isKasanova == some true) = true
          · exact ⟨.resolvedWith (some o), by simp [hfl]⟩
          · exact ⟨.rejectedWith DetectTs.l2InitInvalidMsg, by simp [hfl]⟩
  | announce rdns provider =>
    cases l with
    | false => exact Or.inl rfl
    | true =>
      by_cases hr : (rdns == some "app.kasanova") = true
      · cases st with
        | true =>
          refine Or.inl ?_
          simp [DetectTs.waitForL2Step, DetectTs.onAnnounceL2, hr]
        | false =>
          refine Or.inr (Or.inr ⟨rfl, Or.inl rfl, tm, .resolvedWith provider, ?_⟩)
          simp [DetectTs.waitForL2Step, DetectTs.onAnnounceL2, hr]
      · refine Or.inl ?_
        simp [DetectTs.waitForL2Step, DetectTs.onAnnounceL2, hr]
  | timerFire g =>
    cases tm with
    | false => exact Or.inl rfl
    | true =>
      cases st with
      | true => exact Or.inr (Or.inl ⟨rfl, rfl, by simp [DetectTs.waitForL2Step]⟩)
      | false =>
        exact Or.inr (Or.inr ⟨rfl, Or.inr rfl, false,
          .rejectedWith DetectTs.l2TimeoutMsg,
          by simp [DetectTs.waitForL2Step]⟩)

theorem oneShot_step {f : WaitSt → Ev → WaitSt} (hf : SettleStep f)
    (s : WaitSt) (e : Ev) (h : OneShot s) : OneShot (f s e) := by
  rcases hf s e with heq | ⟨hst, htm, heq⟩ | ⟨hst, hguard, b, r, heq⟩
  · rw [heq]; exact h
  · rw [heq]
    refine ⟨fun _ => h.1 (Or.inl hst), fun _ => ?_⟩
    exact Or.inr rfl
  · rw [heq]
    exact ⟨fun _ => rfl, fun _ => Or.inl rfl⟩

theorem settledLink_step {f : WaitSt → Ev → WaitSt} (hf : SettleStep f)
    (s : WaitSt) (e : Ev) (h : SettledLink s) : SettledLink (f s e) := by
  rcases hf s e with heq | ⟨hst, htm, heq⟩ | ⟨hst, hguard, b, r, heq⟩
  · rw [heq]; exact h
  · rw [heq]; exact fun _ => hst
  · rw [heq]; exact fun _ => rfl

theorem result_stable_step {f : WaitSt → Ev → WaitSt} (hf : SettleStep f)
    (s : WaitSt) (e : Ev) (r : Settlement) (h : OneShot s) (hr : s.result = some r) :
    (f s e).result = some r := by
  rcases hf s e with heq | ⟨hst, htm, heq⟩ | ⟨hst, hguard, b, r', heq⟩
  · rw [heq]; exact hr
  · rw [heq]; exact hr
  · exfalso
    have hl : s.listeners = false := h.1 (Or.inr (by simp [hr]))
    have htm : s.timerScheduled = false := by
      rcases h.2 (by simp [hr]) with h2 | h2
      · rw [h2] at hst; cases hst
      · exact h2
    rcases hguard with hg | hg
    · rw [hg] at hl; cases hl
    · rw [hg] at htm; cases htm

theorem noLeak_step {f : WaitSt → Ev → WaitSt} (hf : CleanSettleStep f)
    (s : WaitSt) (e : Ev) (h : NoLeak s) : NoLeak (f s e) := by
  rcases hf s e with heq | ⟨hst, htm, heq⟩ | ⟨hst, hguard, r, heq⟩
  · rw [heq]; exact h
  · exact absurd (h (Or.inl hst)).2 (by simp [htm])
  · rw [heq]; exact fun _ => ⟨rfl, rfl⟩

theorem foldl_pres {P : WaitSt → Prop} {f : WaitSt → Ev → WaitSt}
    (hstep : ∀ s e, P s → P (f s e)) :
    ∀ (evs : List Ev) (s : WaitSt), P s → P (evs.foldl f s)
  | [], _, hs => hs
  | e :: evs, s, hs => foldl_pres hstep evs (f s e) (hstep s e hs)

theorem foldl_result_stable {f : WaitSt → Ev → WaitSt} (hf : SettleStep f) :
    ∀ (evs : List Ev) (s : WaitSt) (r : Settlement), OneShot s → s.result = some r →
      (evs.foldl f s).result = some r
  | [], _, _, _, hr => hr
  | e :: evs, s, r, h, hr =>
    foldl_result_stable hf evs (f s e) r (oneShot_step hf s e h)
      (result_stable_step hf s e r h hr)

theorem oneShot_immediateResolved (o : Obj) : OneShot (immediateResolved o) := by
  exact ⟨fun _ => rfl, fun _ => Or.inr rfl⟩

theorem oneShot_pendingNoTimer : OneShot pendingNoTimer := by
  refine ⟨fun h => ?_, fun h => ?_⟩ <;> simp [pendingNoTimer] at h

theorem settledLink_pendingNoTimer : SettledLink pendingNoTimer := by
  intro h; simp [pendingNoTimer] at h

theorem p1_onInitKasware_oneShot (g : GlobalEnv) : OneShot (Part001.onInitKasware g pendingNoTimer) := by
  simp only [Part001.onInitKasware, pendingNoTimer]
  cases kaswareSlot g with
  | none => exact ⟨fun _ => rfl, fun _ => Or.inl rfl⟩
  | some o =>
    by_cases hsh : hasKaswareShape (some o) = true <;>
      simp [hsh] <;> exact ⟨fun _ => rfl, fun _ => Or.inl rfl⟩

theorem p1_onInitL2_oneShot (g : GlobalEnv) : OneShot (Part001.onInitL2 g pendingNoTimer) := by
  simp only [Part001.onInitL2, pendingNoTimer]
  cases ethereumSlot g with
  | none => exact ⟨fun _ => rfl, fun _ => Or.inl rfl⟩
  | some o =>
    by_cases hfl : (o.isKasanova == some true) = true <;>
      simp [hfl] <;> exact ⟨fun _ => rfl, fun _ => Or.inl rfl⟩

theorem p1_kasware_start_oneShot (g0 g1 : GlobalEnv) :
    OneShot (Part001.waitForKaswareStart g0 g1) := by
  simp only [Part001.waitForKaswareStart]
  cases kaswareSlot g0 with
  | some o => exact oneShot_immediateResolved o
  | none =>
    by_cases hre : (isKaswareAvailable g1 && hasKaswareShape (kaswareSlot g1)) = true
    · simpa [hre] using p1_onInitKasware_oneShot g1
    · simp only [hre, if_false, Bool.false_eq_true]
      refine ⟨fun h => ?_, fun h => ?_⟩ <;> simp [pendingNoTimer] at h

theorem p1_l2_start_oneShot (t : Nat) (g0 g1 : GlobalEnv) (sync : List Ev) :
    OneShot (Part001.waitForL2Start t g0 g1 sync) := by
  have haux : OneShot (Part001.waitForL2Start.waitForL2StartAux t g1 sync) := by
    simp only [Part001.waitForL2Start.waitForL2StartAux]
    by_cases hav : isKasanovaL2Available g1 = true
    · simpa [hav] using p1_onInitL2_oneShot g1
    · simp only [hav, if_false, Bool.false_eq_true]
      have h1 : OneShot (sync.foldl (Part001.waitForL2Step t) pendingNoTimer) :=
        foldl_pres (oneShot_step (p1_l2_cleanSettleStep t).toSettleStep) sync _ oneShot_pendingNoTimer
      have h2 : SettledLink (sync.foldl (Part001.waitForL2Step t) pendingNoTimer) :=
        foldl_pres (settledLink_step (p1_l2_cleanSettleStep t).toSettleStep) sync _ settledLink_pendingNoTimer
      exact ⟨fun h => h1.1 h, fun h => Or.inl (h2 h)⟩
  simp only [Part001.waitForL2Start]
  cases ethereumSlot g0 with
  | some o =>
    by_cases hfl : (o.isKasanova == some true) = true
    · simp only [hfl, if_true]; exact oneShot_immediateResolved o
    · simpa [hfl] using haux
  | none => exact haux

theorem d_kasware_start_oneShot (g0 : GlobalEnv) :
    OneShot (DetectTs.waitForKaswareStart g0) := by
  simp only [DetectTs.waitForKaswareStart]
  cases kaswareSlot g0 with
  | some o => exact oneShot_immediateResolved o
  | none => refine ⟨fun h => ?_, fun h => ?_⟩ <;> simp [pendingNoTimer] at h

theorem d_l2_start_oneShot (g0 : GlobalEnv) (sync : List Ev) :
    OneShot (DetectTs.waitForL2Start g0 sync) := by
  have h1 : OneShot (sync.foldl DetectTs.waitForL2Step pendingNoTimer) :=
    foldl_pres (oneShot_step d_l2_settleStep) sync _ oneShot_pendingNoTimer
  have h2 : SettledLink (sync.foldl DetectTs.waitForL2Step pendingNoTimer) :=
    foldl_pres (settledLink_step d_l2_settleStep) sync _ settledLink_pendingNoTimer
  simp only [DetectTs.waitForL2Start]
  cases ethereumSlot g0 with
  | some o =>
    by_cases hfl : (o.isKasanova == some true) = true
    · simp only [hfl, if_true]; exact oneShot_immediateResolved o
    · simp only [hfl, if_false, Bool.false_eq_true]
      exact ⟨fun h => h1.1 h, fun h => Or.inl (h2 h)⟩
  | none => exact ⟨fun h => h1.1 h, fun h => Or.inl (h2 h)⟩

theorem noLeak_immediateResolved (o : Obj) : NoLeak (immediateResolved o) :=
  fun _ => ⟨rfl, rfl⟩

theorem p1_onInitKasware_noLeak (g : GlobalEnv) :
    NoLeak (Part001.onInitKasware g pendingNoTimer) := by
  simp only [Part001.onInitKasware, pendingNoTimer]
  cases kaswareSlot g with
  | none => exact fun _ => ⟨rfl, rfl⟩
  | some o =>
    by_cases hsh : hasKaswareShape (some o) = true <;>
      simp [hsh] <;> exact fun _ => ⟨rfl, rfl⟩

theorem p1_onInitL2_noLeak (g : GlobalEnv) :
    NoLeak (Part001.onInitL2 g pendingNoTimer) := by
  simp only [Part001.onInitL2, pendingNoTimer]
  cases ethereumSlot g with
  | none => exact fun _ => ⟨rfl, rfl⟩
  | some o =>
    by_cases hfl : (o.isKasanova == some true) = true <;>
      simp [hfl] <;> exact fun _ => ⟨rfl, rfl⟩

theorem p1_kasware_start_noLeak (g0 g1 : GlobalEnv) :
    NoLeak (Part001.waitForKaswareStart g0 g1) := by
  simp only [Part001.waitForKaswareStart]
  cases kaswareSlot g0 with
  | some o => exact noLeak_immediateResolved o
  | none =>
    by_cases hre : (isKaswareAvailable g1 && hasKaswareShape (kaswareSlot g1)) = true
    · simpa [hre] using p1_onInitKasware_noLeak g1
    · simp only [hre, if_false, Bool.false_eq_true]
      intro h
      rcases h with h | h <;> simp [pendingNoTimer] at h

theorem p1_l2_start_noLeak (t : Nat) (g0 g1 : GlobalEnv) :
    NoLeak (Part001.waitForL2Start t g0 g1 []) := by
  have haux : NoLeak (Part001.waitForL2Start.waitForL2StartAux t g1 []) := by
    simp only [Part001.waitForL2Start.waitForL2StartAux]
    by_cases hav : isKasanovaL2Available g1 = true
    · simpa [hav] using p1_onInitL2_noLeak g1
    · simp only [hav, if_false, Bool.false_eq_true, List.foldl_nil]
      intro h
      rcases h with h | h <;> simp [pendingNoTimer] at h
  simp only [Part001.waitForL2Start]
  cases ethereumSlot g0 with
  | some o =>
    by_cases hfl : (o.isKasanova == some true) = true
    · simp only [hfl, if_true]; exact noLeak_immediateResolved o
    · simpa [hfl] using haux
  | none => exact haux

theorem p1_kasware_start_pending (g0 g1 : GlobalEnv) (h0 : kaswareSlot g0 = none)
    (h1 : hasKaswareShape (kaswareSlot g1) = false) :
    Part001.waitForKaswareStart g0 g1 = pendingWithTimer := by
  simp [Part001.waitForKaswareStart, h0, h1, pendingNoTimer, pendingWithTimer]

theorem l2_flag_of_not_available (g : GlobalEnv) (h : isKasanovaL2Available g = false)
    (o : Obj) (ho : ethereumSlot g = some o) : (o.isKasanova == some true) = false := by
  cases g with
  | noWindow => simp [ethereumSlot] at ho
  | window w =>
    simp only [ethereumSlot] at ho
    simpa [isKasanovaL2Available, ho] using h

theorem p1_l2_start_pending (t : Nat) (e0 e1 : GlobalEnv)
    (h0 : isKasanovaL2Available e0 = false) (h1 : isKasanovaL2Available e1 = false) :
    Part001.waitForL2Start t e0 e1 [] = pendingWithTimer := by
  have haux : Part001.waitForL2Start.waitForL2StartAux t e1 [] = pendingWithTimer := by
    simp [Part001.waitForL2Start.waitForL2StartAux, h1, pendingNoTimer, pendingWithTimer]
  simp only [Part001.waitForL2Start]
  cases he : ethereumSlot e0 with
  | none => exact haux
  | some o =>
    have hfl := l2_flag_of_not_available e0 h0 o he
    simpa [hfl] using haux

theorem d_kasware_start_pending (g0 : GlobalEnv) (h0 : kaswareSlot g0 = none) :
    DetectTs.waitForKaswareStart g0 = pendingWithTimer := by
  simp [DetectTs.waitForKaswareStart, h0, pendingNoTimer, pendingWithTimer]

theorem d_l2_start_pending (g0 : GlobalEnv) (h0 : isKasanovaL2Available g0 = false) :
    DetectTs.waitForL2Start g0 [] = pendingWithTimer := by
  simp only [DetectTs.waitForL2Start]
  cases he : ethereumSlot g0 with
  | none => simp [pendingNoTimer, pendingWithTimer]
  | some o =>
    have hfl := l2_flag_of_not_available g0 h0 o he
    simp [hfl, pendingNoTimer, pendingWithTimer]

theorem string_ne_of_head (a b : String) (h : a.data.head? ≠ b.data.head?) : a ≠ b :=
  fun he => h (by rw [he])

theorem p1_l1_msgs_distinct (t : Nat) (slot : Option Obj) :
    Part001.l1InitInvalidMsg ≠ Part001.l1TimeoutMsg t slot := by
  apply string_ne_of_head
  have h1 : Part001.l1InitInvalidMsg.data.head? = some 'P' := rfl
  have h2 : (Part001.l1TimeoutMsg t slot).data.head? = some 'K' := by
    simp only [Part001.l1TimeoutMsg, String.data_append, List.append_assoc]
    rfl
  rw [h1, h2]
  decide

theorem p1_l2_msgs_distinct (slot0 : Option Obj) (t : Nat) (slot : Option Obj) :
    Part001.l2InitInvalidMsg slot0 ≠ Part001.l2TimeoutMsg t slot := by
  apply string_ne_of_head
  have h1 : (Part001.l2InitInvalidMsg slot0).data.head? = some 'e' := by
    simp only [Part001.l2InitInvalidMsg, String.data_append, List.append_assoc]
    rfl
  have h2 : (Part001.l2TimeoutMsg t slot).data.head? = some 'K' := by
    simp only [Part001.l2TimeoutMsg, String.data_append, List.append_assoc]
    rfl
  rw [h1, h2]
  decide

theorem p1_l1_timeout_contains (t : Nat) (slot : Option Obj) :
    strContains (Part001.l1TimeoutMsg t slot) (toString t)
    ∧ strContains (Part001.l1TimeoutMsg t slot) (typeofSlot slot) := by
  constructor
  · refine ⟨"Kasanova wallet not detected after ".data,
      ("ms. " ++ "window.kasware is " ++ typeofSlot slot ++ ". " ++
        "Is the dApp open inside Kasanova?").data, ?_⟩
    simp [Part001.l1TimeoutMsg, String.data_append, List.append_assoc]
  · refine ⟨("Kasanova wallet not detected after " ++ toString t ++ "ms. " ++
      "window.kasware is ").data,
      (". " ++ "Is the dApp open inside Kasanova?").data, ?_⟩
    simp [Part001.l1TimeoutMsg, String.data_append, List.append_assoc]

theorem p1_l2_timeout_contains (t : Nat) (slot : Option Obj) :
    strContains (Part001.l2TimeoutMsg t slot) (toString t)
    ∧ strContains (Part001.l2TimeoutMsg t slot) (typeofSlot slot) := by
  constructor
  · refine ⟨"Kasanova L2 provider not detected after ".data,
      ("ms. " ++ "window.ethereum is " ++ typeofSlot slot ++
        (match slot with
         | some o => ", isKasanova=" ++ renderFlag o.isKasanova
         | none => "") ++ ".").data, ?_⟩
    simp [Part001.l2TimeoutMsg, String.data_append, List.append_assoc]
  · refine ⟨("Kasanova L2 provider not detected after " ++ toString t ++ "ms. " ++
      "window.ethereum is ").data,
      ((match slot with
        | some o => ", isKasanova=" ++ renderFlag o.isKasanova
        | none => "") ++ ".").data, ?_⟩
    simp [Part001.l2TimeoutMsg, String.data_append, List.append_assoc]

/-- C1: counterexample.  In `src/src/detect.ts`, `cleanup` removes the two
listeners but never calls `clearTimeout`, so after an event-driven
resolution the promise is settled while the timeout timer is still
scheduled — refuting the claim that on every exit path the pending timer
has been cancelled once the promise settles. -/
theorem claim1_counterexample :
    (DetectTs.waitForKaswareRun emptyWindow [.l1init kaswareWindow]).result
        = some (.resolvedWith (some goodKasware))
    ∧ (DetectTs.waitForKaswareRun emptyWindow [.l1init kaswareWindow]).timerScheduled = true := by
  exact ⟨rfl, rfl⟩

/-- C1 (amended): in the part_001 versions, once the promise settles, all
listeners are removed and no timer remains scheduled (for `waitForKasanovaL2`,
in executions where no announce event is delivered synchronously during the
`eip6963:requestProvider` dispatch — a synchronous settlement there precedes
the unconditional `setTimeout`, which then schedules a timer that later fires
as a `settled`-guarded no-op); in the detect.ts versions, settlement removes
all listeners but never cancels the timeout timer. -/
theorem claim1_amended :
    ∀ (t : Nat) (g0 g1 : GlobalEnv) (sync evs : List Ev),
      ((Part001.waitForKaswareRun t g0 g1 evs).result.isSome = true →
        (Part001.waitForKaswareRun t g0 g1 evs).listeners = false
          ∧ (Part001.waitForKaswareRun t g0 g1 evs).timerScheduled = false)
      ∧ ((Part001.waitForL2Run t g0 g1 [] evs).result.isSome = true →
        (Part001.waitForL2Run t g0 g1 [] evs).listeners = false
          ∧ (Part001.waitForL2Run t g0 g1 [] evs).timerScheduled = false)
      ∧ ((DetectTs.waitForKaswareRun g0 evs).result.isSome = true →
        (DetectTs.waitForKaswareRun g0 evs).listeners = false)
      ∧ ((DetectTs.waitForL2Run g0 sync evs).result.isSome = true →
        (DetectTs.waitForL2Run g0 sync evs).listeners = false) := by
  intro t g0 g1 sync evs
  refine ⟨fun h => ?_, fun h => ?_, fun h => ?_, fun h => ?_⟩
  · exact foldl_pres (noLeak_step (p1_kasware_cleanSettleStep t)) evs _
      (p1_kasware_start_noLeak g0 g1) (Or.inr h)
  · exact foldl_pres (noLeak_step (p1_l2_cleanSettleStep t)) evs _
      (p1_l2_start_noLeak t g0 g1) (Or.inr h)
  · exact (foldl_pres (oneShot_step d_kasware_settleStep) evs _
      (d_kasware_start_oneShot g0)).1 (Or.inr h)
  · exact (foldl_pres (oneShot_step d_l2_settleStep) evs _
      (d_l2_start_oneShot g0 sync)).1 (Or.inr h)

/-- C1 (amended), witness: a part_001 `waitForKasware` call that times out has
released its listeners and its timer. -/
theorem claim1_amended_witness :
    (Part001.waitForKaswareRun 3000 emptyWindow emptyWindow [.timerFire emptyWindow]).listeners = false
    ∧ (Part001.waitForKaswareRun 3000 emptyWindow emptyWindow [.timerFire emptyWindow]).timerScheduled = false :=
  (claim1_amended 3000 emptyWindow emptyWindow [] [.timerFire emptyWindow]).1 (by rfl)

/-- C2: in all four wait primitives, at most one of resolve and reject ever
takes effect: once the promise's outcome is fixed by whichever completion
site ran first, delivering any further events (later init events,
announcements, or the timer firing) leaves the outcome unchanged. -/
theorem claim2_one_shot :
    ∀ (t : Nat) (g0 g1 : GlobalEnv) (sync evs evs2 : List Ev) (r : Settlement),
      ((Part001.waitForKaswareRun t g0 g1 evs).result = some r →
        (Part001.waitForKaswareRun t g0 g1 (evs ++ evs2)).result = some r)
      ∧ ((Part001.waitForL2Run t g0 g1 sync evs).result = some r →
        (Part001.waitForL2Run t g0 g1 sync (evs ++ evs2)).result = some r)
      ∧ ((DetectTs.waitForKaswareRun g0 evs).result = some r →
        (DetectTs.waitForKaswareRun g0 (evs ++ evs2)).result = some r)
      ∧ ((DetectTs.waitForL2Run g0 sync evs).result = some r →
        (DetectTs.waitForL2Run g0 sync (evs ++ evs2)).result = some r) := by
  intro t g0 g1 sync evs evs2 r
  refine ⟨fun h => ?_, fun h => ?_, fun h => ?_, fun h => ?_⟩
  · show ((evs ++ evs2).foldl (Part001.waitForKaswareStep t)
      (Part001.waitForKaswareStart g0 g1)).result = some r
    rw [List.foldl_append]
    exact foldl_result_stable (p1_kasware_cleanSettleStep t).toSettleStep evs2 _ r
      (foldl_pres (oneShot_step (p1_kasware_cleanSettleStep t).toSettleStep) evs _
        (p1_kasware_start_oneShot g0 g1)) h
  · show ((evs ++ evs2).foldl (Part001.waitForL2Step t)
      (Part001.waitForL2Start t g0 g1 sync)).result = some r
    rw [List.foldl_append]
    exact foldl_result_stable (p1_l2_cleanSettleStep t).toSettleStep evs2 _ r
      (foldl_pres (oneShot_step (p1_l2_cleanSettleStep t).toSettleStep) evs _
        (p1_l2_start_oneShot t g0 g1 sync)) h
  · show ((evs ++ evs2).foldl DetectTs.waitForKaswareStep
      (DetectTs.waitForKaswareStart g0)).result = some r
    rw [List.foldl_append]
    exact foldl_result_stable d_kasware_settleStep evs2 _ r
      (foldl_pres (oneShot_step d_kasware_settleStep) evs _
        (d_kasware_start_oneShot g0)) h
  · show ((evs ++ evs2).foldl DetectTs.waitForL2Step
      (DetectTs.waitForL2Start g0 sync)).result = some r
    rw [List.foldl_append]
    exact foldl_result_stable d_l2_settleStep evs2 _ r
      (foldl_pres (oneShot_step d_l2_settleStep) evs _
        (d_l2_start_oneShot g0 sync)) h

/-- C2, witness: a part_001 `waitForKasware` call resolved by an init event
keeps the same resolution after the timeout timer would have fired. -/
theorem claim2_one_shot_witness :
    (Part001.waitForKaswareRun 3000 emptyWindow emptyWindow
        ([.l1init kaswareWindow] ++ [.timerFire emptyWindow])).result
      = some (.resolvedWith (some goodKasware)) :=
  (claim2_one_shot 3000 emptyWindow emptyWindow [] [.l1init kaswareWindow]
    [.timerFire emptyWindow] (.resolvedWith (some goodKasware))).1 (by rfl)

theorem isKaswareAvailable_eq_isSome (g : GlobalEnv) :
    isKaswareAvailable g = (kaswareSlot g).isSome := by
  cases g <;> rfl

theorem isKasanovaL2Available_of_slot (g : GlobalEnv) (o : Obj)
    (h : ethereumSlot g = some o) (hf : o.isKasanova = some true) :
    isKasanovaL2Available g = true := by
  cases g with
  | noWindow => simp [ethereumSlot] at h
  | window w =>
    simp only [ethereumSlot] at h
    simp [isKasanovaL2Available, h, hf]

/-- C3: counterexample.  The detect.ts timeout rejection messages are fixed
strings: on a pure timeout with the conventional 3000ms configuration the
message contains neither the duration value nor the observed state of the
global slot — refuting the claim for the detect.ts versions. -/
theorem claim3_counterexample :
    (DetectTs.waitForKaswareRun emptyWindow [.timerFire emptyWindow]).result
        = some (.rejectedWith DetectTs.l1TimeoutMsg)
    ∧ ¬ strContains DetectTs.l1TimeoutMsg "3000"
    ∧ ¬ strContains DetectTs.l1TimeoutMsg "undefined" := by
  exact ⟨rfl, by decide, by decide⟩

/-- C3 (amended): the part_001 waits reject on timeout with a message
containing the configured duration and the `typeof` of the observed global
slot; the detect.ts waits reject on timeout with fixed messages carrying
neither. -/
theorem claim3_amended :
    ∀ (t : Nat) (g0 g1 g e0 e1 e : GlobalEnv),
      (kaswareSlot g0 = none → hasKaswareShape (kaswareSlot g1) = false →
        (Part001.waitForKaswareRun t g0 g1 [.timerFire g]).result
            = some (.rejectedWith (Part001.l1TimeoutMsg t (kaswareSlot g)))
          ∧ strContains (Part001.l1TimeoutMsg t (kaswareSlot g)) (toString t)
          ∧ strContains (Part001.l1TimeoutMsg t (kaswareSlot g)) (typeofSlot (kaswareSlot g)))
      ∧ (isKasanovaL2Available e0 = false → isKasanovaL2Available e1 = false →
        (Part001.waitForL2Run t e0 e1 [] [.timerFire e]).result
            = some (.rejectedWith (Part001.l2TimeoutMsg t (ethereumSlot e)))
          ∧ strContains (Part001.l2TimeoutMsg t (ethereumSlot e)) (toString t)
          ∧ strContains (Part001.l2TimeoutMsg t (ethereumSlot e)) (typeofSlot (ethereumSlot e)))
      ∧ (kaswareSlot g0 = none →
        (DetectTs.waitForKaswareRun g0 [.timerFire g]).result
          = some (.rejectedWith DetectTs.l1TimeoutMsg))
      ∧ (isKasanovaL2Available e0 = false →
        (DetectTs.waitForL2Run e0 [] [.timerFire e]).result
          = some (.rejectedWith DetectTs.l2TimeoutMsg)) := by
  intro t g0 g1 g e0 e1 e
  refine ⟨fun h0 h1 => ⟨?_, (p1_l1_timeout_contains t (kaswareSlot g)).1,
        (p1_l1_timeout_contains t (kaswareSlot g)).2⟩,
      fun h0 h1 => ⟨?_, (p1_l2_timeout_contains t (ethereumSlot e)).1,
        (p1_l2_timeout_contains t (ethereumSlot e)).2⟩,
      fun h0 => ?_, fun h0 => ?_⟩
  · show ((([Ev.timerFire g])).foldl (Part001.waitForKaswareStep t)
      (Part001.waitForKaswareStart g0 g1)).result = _
    rw [p1_kasware_start_pending g0 g1 h0 h1]
    rfl
  · show ((([Ev.timerFire e])).foldl (Part001.waitForL2Step t)
      (Part001.waitForL2Start t e0 e1 [])).result = _
    rw [p1_l2_start_pending t e0 e1 h0 h1]
    rfl
  · show ((([Ev.timerFire g])).foldl DetectTs.waitForKaswareStep
      (DetectTs.waitForKaswareStart g0)).result = _
    rw [d_kasware_start_pending g0 h0]
    rfl
  · show ((([Ev.timerFire e])).foldl DetectTs.waitForL2Step
      (DetectTs.waitForL2Start e0 [])).result = _
    rw [d_l2_start_pending e0 h0]
    rfl

/-- C3 (amended), witness: the four timeout rejections at t = 3000 in an
empty window. -/
theorem claim3_amended_witness :
    (Part001.waitForKaswareRun 3000 emptyWindow emptyWindow [.timerFire emptyWindow]).result
        = some (.rejectedWith (Part001.l1TimeoutMsg 3000 (kaswareSlot emptyWindow)))
    ∧ (Part001.waitForL2Run 3000 emptyWindow emptyWindow [] [.timerFire emptyWindow]).result
        = some (.rejectedWith (Part001.l2TimeoutMsg 3000 (ethereumSlot emptyWindow)))
    ∧ (DetectTs.waitForKaswareRun emptyWindow [.timerFire emptyWindow]).result
        = some (.rejectedWith DetectTs.l1TimeoutMsg)
    ∧ (DetectTs.waitForL2Run emptyWindow [] [.timerFire emptyWindow]).result
        = some (.rejectedWith DetectTs.l2TimeoutMsg) :=
  ⟨((claim3_amended 3000 emptyWindow emptyWindow emptyWindow emptyWindow emptyWindow
      emptyWindow).1 rfl rfl).1,
   ((claim3_amended 3000 emptyWindow emptyWindow emptyWindow emptyWindow emptyWindow
      emptyWindow).2.1 rfl rfl).1,
   (claim3_amended 3000 emptyWindow emptyWindow emptyWindow emptyWindow emptyWindow
      emptyWindow).2.2.1 rfl,
   (claim3_amended 3000 emptyWindow emptyWindow emptyWindow emptyWindow emptyWindow
      emptyWindow).2.2.2 rfl⟩

/-- C4: counterexample.  The detect.ts versions never re-check presence after
registering their listeners: in an execution where a valid-shaped provider is
present from the instant after the initial check onward but no
initialization event is ever delivered, `waitForKasware` rejects on timeout
instead of resolving — refuting the claim that both wait primitives
re-check and still resolve. -/
theorem claim4_counterexample :
    hasKaswareShape (kaswareSlot kaswareWindow) = true
    ∧ (DetectTs.waitForKaswareRun emptyWindow [.timerFire kaswareWindow]).result
        = some (.rejectedWith DetectTs.l1TimeoutMsg) := by
  exact ⟨rfl, rfl⟩

/-- C4 (amended): the part_001 waits re-check presence right after listener
registration and settle synchronously (resolving with the provider now in
the slot) without any event and without scheduling the timer; the detect.ts
waits perform no re-check and remain pending after their synchronous phase
whenever the initial check failed. -/
theorem claim4_amended :
    ∀ (t : Nat) (g0 g1 : GlobalEnv) (o : Obj) (sync : List Ev),
      (kaswareSlot g0 = none → kaswareSlot g1 = some o → hasKaswareShape (some o) = true →
        Part001.waitForKaswareStart g0 g1
          = { settled := true, listeners := false, timerScheduled := false,
              result := some (.resolvedWith (some o)) })
      ∧ (isKasanovaL2Available g0 = false → ethereumSlot g1 = some o →
          o.isKasanova = some true →
        Part001.waitForL2Start t g0 g1 sync
          = { settled := true, listeners := false, timerScheduled := false,
              result := some (.resolvedWith (some o)) })
      ∧ (kaswareSlot g0 = none → (DetectTs.waitForKaswareStart g0).result = none)
      ∧ (isKasanovaL2Available g0 = false → (DetectTs.waitForL2Start g0 []).result = none) := by
  intro t g0 g1 o sync
  refine ⟨fun h0 h1 hsh => ?_, fun h0 h1 hf => ?_, fun h0 => ?_, fun h0 => ?_⟩
  · have hav : isKaswareAvailable g1 = true := by
      rw [isKaswareAvailable_eq_isSome, h1]; rfl
    simp only [Part001.waitForKaswareStart, h0, hav, h1, hsh, Bool.and_self,
      if_true, Part001.onInitKasware, pendingNoTimer]
    simp [h1, hsh]
  · have hav : isKasanovaL2Available g1 = true := isKasanovaL2Available_of_slot g1 o h1 hf
    have haux : Part001.waitForL2Start.waitForL2StartAux t g1 sync
        = { settled := true, listeners := false, timerScheduled := false,
            result := some (.resolvedWith (some o)) } := by
      simp only [Part001.waitForL2Start.waitForL2StartAux, hav, if_true,
        Part001.onInitL2, pendingNoTimer]
      simp [h1, hf]
    simp only [Part001.waitForL2Start]
    cases he : ethereumSlot g0 with
    | none => exact haux
    | some o0 =>
      have hfl := l2_flag_of_not_available g0 h0 o0 he
      simpa [hfl] using haux
  · rw [d_kasware_start_pending g0 h0]; rfl
  · rw [d_l2_start_pending g0 h0]; rfl

/-- C4 (amended), witness: the race-closure paths at concrete windows. -/
theorem claim4_amended_witness :
    Part001.waitForKaswareStart emptyWindow kaswareWindow
      = { settled := true, listeners := false, timerScheduled := false,
          result := some (.resolvedWith (some goodKasware)) }
    ∧ Part001.waitForL2Start 3000 emptyWindow l2Window []
      = { settled := true, listeners := false, timerScheduled := false,
          result := some (.resolvedWith (some goodL2)) } :=
  ⟨(claim4_amended 3000 emptyWindow kaswareWindow goodKasware []).1 rfl rfl rfl,
   (claim4_amended 3000 emptyWindow l2Window goodL2 []).2.1 rfl rfl rfl⟩

/-- C5: counterexample.  In detect.ts, `onAnnounce` performs no shape check:
an `eip6963:announceProvider` event with rdns `app.kasanova` whose provider
lacks the required `request` method settles the wait and resolves with that
invalid provider — it is not ignored. -/
theorem claim5_counterexample :
    hasEthereumProviderShape (some badL2) = false
    ∧ (DetectTs.waitForL2Run emptyWindow []
          [.announce (some "app.kasanova") (some badL2)]).result
        = some (.resolvedWith (some badL2)) := by
  exact ⟨rfl, rfl⟩

/-- C5 (amended): in part_001, a matching announcement whose provider is
absent or fails the shape check leaves the pending wait completely
unchanged (no settlement, no listener removal, no timer change), and a
subsequent valid announcement in the same window still resolves with its
provider; in detect.ts, a matching announcement resolves with whatever
provider it carried, valid or not. -/
theorem claim5_amended :
    ∀ (t : Nat) (e0 e1 : GlobalEnv) (p : Option Obj) (o : Obj),
      isKasanovaL2Available e0 = false → isKasanovaL2Available e1 = false →
      hasEthereumProviderShape p = false → hasEthereumProviderShape (some o) = true →
      Part001.waitForL2Run t e0 e1 [] [.announce (some "app.kasanova") p]
          = pendingWithTimer
      ∧ (Part001.waitForL2Run t e0 e1 []
            [.announce (some "app.kasanova") p,
             .announce (some "app.kasanova") (some o)]).result
          = some (.resolvedWith (some o))
      ∧ (DetectTs.waitForL2Run e0 [] [.announce (some "app.kasanova") p]).result
          = some (.resolvedWith p) := by
  intro t e0 e1 p o h0 h1 hp hsh
  have hst := p1_l2_start_pending t e0 e1 h0 h1
  have hskip : Part001.waitForL2Step t pendingWithTimer (.announce (some "app.kasanova") p)
      = pendingWithTimer := by
    cases p with
    | none => rfl
    | some o' =>
      simp only [Part001.waitForL2Step, Part001.onAnnounceL2, pendingWithTimer]
      simp [hp]
  refine ⟨?_, ?_, ?_⟩
  · show ([Ev.announce (some "app.kasanova") p].foldl (Part001.waitForL2Step t)
      (Part001.waitForL2Start t e0 e1 [])) = _
    rw [hst]
    simpa using hskip
  · show (([Ev.announce (some "app.kasanova") p,
        Ev.announce (some "app.kasanova") (some o)]).foldl (Part001.waitForL2Step t)
      (Part001.waitForL2Start t e0 e1 [])).result = _
    rw [hst]
    simp only [List.foldl_cons, List.foldl_nil, hskip]
    simp only [Part001.waitForL2Step, Part001.onAnnounceL2, pendingWithTimer]
    simp [hsh]
  · show ([Ev.announce (some "app.kasanova") p].foldl DetectTs.waitForL2Step
      (DetectTs.waitForL2Start e0 [])).result = _
    rw [d_l2_start_pending e0 h0]
    rfl

/-- C5 (amended), witness: an invalid then a valid announcement at concrete
inputs. -/
theorem claim5_amended_witness :
    Part001.waitForL2Run 3000 emptyWindow emptyWindow []
        [.announce (some "app.kasanova") (some badL2)]
      = pendingWithTimer
    ∧ (Part001.waitForL2Run 3000 emptyWindow emptyWindow []
          [.announce (some "app.kasanova") (some badL2),
           .announce (some "app.kasanova") (some goodL2)]).result
        = some (.resolvedWith (some goodL2)) :=
  ⟨(claim5_amended 3000 emptyWindow emptyWindow (some badL2) goodL2 rfl rfl rfl rfl).1,
   (claim5_amended 3000 emptyWindow emptyWindow (some badL2) goodL2 rfl rfl rfl rfl).2.1⟩

/-- C6: when an initialization event fires while the wait is pending but the
global handle is absent or fails validation (for L1 the shape check, for L2
the `isKasanova` flag), the part_001 waits reject immediately with the
descriptive init-invalid message — they do not keep waiting for the
timeout — and that message differs from every timeout message. -/
theorem claim6_invalid_init_rejects :
    ∀ (t : Nat) (g0 g1 g e0 e1 e : GlobalEnv),
      (kaswareSlot g0 = none → hasKaswareShape (kaswareSlot g1) = false →
          hasKaswareShape (kaswareSlot g) = false →
        (Part001.waitForKaswareRun t g0 g1 [.l1init g]).result
            = some (.rejectedWith Part001.l1InitInvalidMsg)
          ∧ ∀ (t2 : Nat) (slot : Option Obj),
              Part001.l1InitInvalidMsg ≠ Part001.l1TimeoutMsg t2 slot)
      ∧ (isKasanovaL2Available e0 = false → isKasanovaL2Available e1 = false →
          isKasanovaL2Available e = false →
        (Part001.waitForL2Run t e0 e1 [] [.ethInit e]).result
            = some (.rejectedWith (Part001.l2InitInvalidMsg (ethereumSlot e)))
          ∧ ∀ (t2 : Nat) (slot : Option Obj),
              Part001.l2InitInvalidMsg (ethereumSlot e) ≠ Part001.l2TimeoutMsg t2 slot) := by
  intro t g0 g1 g e0 e1 e
  refine ⟨fun h0 h1 hg => ⟨?_, fun t2 slot => p1_l1_msgs_distinct t2 slot⟩,
      fun h0 h1 he => ⟨?_, fun t2 slot => p1_l2_msgs_distinct (ethereumSlot e) t2 slot⟩⟩
  · show ([Ev.l1init g].foldl (Part001.waitForKaswareStep t)
      (Part001.waitForKaswareStart g0 g1)).result = _
    rw [p1_kasware_start_pending g0 g1 h0 h1]
    simp only [List.foldl_cons, List.foldl_nil, Part001.waitForKaswareStep,
      pendingWithTimer, Part001.onInitKasware]
    cases hk : kaswareSlot g with
    | none => rfl
    | some o =>
      rw [hk] at hg
      simp [hg]
  · show ([Ev.ethInit e].foldl (Part001.waitForL2Step t)
      (Part001.waitForL2Start t e0 e1 [])).result = _
    rw [p1_l2_start_pending t e0 e1 h0 h1]
    simp only [List.foldl_cons, List.foldl_nil, Part001.waitForL2Step,
      pendingWithTimer, Part001.onInitL2]
    cases hk : ethereumSlot e with
    | none => rfl
    | some o =>
      have hfl := l2_flag_of_not_available e he o hk
      simp [hfl]

/-- C6, witness: an init event firing over an empty window rejects with the
init-invalid message, which differs from the 3000ms timeout message. -/
theorem claim6_invalid_init_rejects_witness :
    (Part001.waitForKaswareRun 3000 emptyWindow emptyWindow [.l1init emptyWindow]).result
        = some (.rejectedWith Part001.l1InitInvalidMsg)
    ∧ Part001.l1InitInvalidMsg ≠ Part001.l1TimeoutMsg 3000 none
    ∧ (Part001.waitForL2Run 3000 emptyWindow emptyWindow [] [.ethInit emptyWindow]).result
        = some (.rejectedWith (Part001.l2InitInvalidMsg (ethereumSlot emptyWindow)))
    ∧ Part001.l2InitInvalidMsg (ethereumSlot emptyWindow) ≠ Part001.l2TimeoutMsg 3000 none :=
  ⟨((claim6_invalid_init_rejects 3000 emptyWindow emptyWindow emptyWindow emptyWindow
      emptyWindow emptyWindow).1 rfl rfl rfl).1,
   ((claim6_invalid_init_rejects 3000 emptyWindow emptyWindow emptyWindow emptyWindow
      emptyWindow emptyWindow).1 rfl rfl rfl).2 3000 none,
   ((claim6_invalid_init_rejects 3000 emptyWindow emptyWindow emptyWindow emptyWindow
      emptyWindow emptyWindow).2 rfl rfl rfl).1,
   ((claim6_invalid_init_rejects 3000 emptyWindow emptyWindow emptyWindow emptyWindow
      emptyWindow emptyWindow).2 rfl rfl rfl).2 3000 none⟩

/-- C7: when the provider is already in its global slot at invocation (for
L2, with the `isKasanova` flag set), every wait version resolves in its
synchronous phase with exactly that object, registering no listener and
scheduling no timer (`immediateResolved` has `listeners = false` and
`timerScheduled = false`). -/
theorem claim7_immediate_presence :
    ∀ (t : Nat) (g0 g1 : GlobalEnv) (sync : List Ev) (o : Obj),
      (kaswareSlot g0 = some o →
        Part001.waitForKaswareStart g0 g1 = immediateResolved o
        ∧ DetectTs.waitForKaswareStart g0 = immediateResolved o)
      ∧ (ethereumSlot g0 = some o → o.isKasanova = some true →
        Part001.waitForL2Start t g0 g1 sync = immediateResolved o
        ∧ DetectTs.waitForL2Start g0 sync = immediateResolved o) := by
  intro t g0 g1 sync o
  refine ⟨fun h => ⟨?_, ?_⟩, fun h hf => ⟨?_, ?_⟩⟩
  · simp [Part001.waitForKaswareStart, h]
  · simp [DetectTs.waitForKaswareStart, h]
  · simp [Part001.waitForL2Start, h, hf]
  · simp [DetectTs.waitForL2Start, h, hf]

/-- C7, witness: immediate presence at concrete windows. -/
theorem claim7_immediate_presence_witness :
    Part001.waitForKaswareStart kaswareWindow emptyWindow = immediateResolved goodKasware
    ∧ DetectTs.waitForKaswareStart kaswareWindow = immediateResolved goodKasware
    ∧ Part001.waitForL2Start 3000 l2Window emptyWindow [] = immediateResolved goodL2
    ∧ DetectTs.waitForL2Start l2Window [] = immediateResolved goodL2 :=
  ⟨((claim7_immediate_presence 3000 kaswareWindow emptyWindow [] goodKasware).1 rfl).1,
   ((claim7_immediate_presence 3000 kaswareWindow emptyWindow [] goodKasware).1 rfl).2,
   ((claim7_immediate_presence 3000 l2Window emptyWindow [] goodL2).2 rfl rfl).1,
   ((claim7_immediate_presence 3000 l2Window emptyWindow [] goodL2).2 rfl rfl).2⟩

/-- C8: a populated `window.ethereum` whose `isKasanova` property is not the
boolean `true` makes `isKasanovaL2Available` false and
`getKasanovaL2Provider` null; and `isKasanovaL2Available` is true exactly
when a window exists whose `ethereum` slot holds an object with
`isKasanova === true`. -/
theorem claim8_l2_identification :
    ∀ (g : GlobalEnv) (o : Obj),
      (ethereumSlot g = some o → o.isKasanova ≠ some true →
        isKasanovaL2Available g = false ∧ getKasanovaL2Provider g = none)
      ∧ (isKasanovaL2Available g = true ↔
          ∃ o2, ethereumSlot g = some o2 ∧ o2.isKasanova = some true) := by
  intro g o
  constructor
  · intro h hf
    have hav : isKasanovaL2Available g = false := by
      cases g with
      | noWindow => rfl
      | window w =>
        simp only [ethereumSlot] at h
        simp [isKasanovaL2Available, h, hf]
    exact ⟨hav, by simp [getKasanovaL2Provider, hav]⟩
  · constructor
    · intro hav
      cases g with
      | noWindow => simp [isKasanovaL2Available] at hav
      | window w =>
        cases he : w.ethereum with
        | none => rw [isKasanovaL2Available, he] at hav; cases hav
        | some o2 =>
          rw [isKasanovaL2Available, he] at hav
          exact ⟨o2, by simp [ethereumSlot, he], by simpa using hav⟩
    · rintro ⟨o2, h2, hf2⟩
      exact isKasanovaL2Available_of_slot g o2 h2 hf2

/-- C8, witness: a generic EIP-1193 provider without the flag is not
reported as the Kasanova L2 provider. -/
theorem claim8_l2_identification_witness :
    isKasanovaL2Available genericEthWindow = false
    ∧ getKasanovaL2Provider genericEthWindow = none :=
  (claim8_l2_identification genericEthWindow genericEth).1 rfl (by decide)

/-- C9: the three synchronous presence checks are total boolean functions of
the global environment (they are Lean functions into `Bool`, so they cannot
throw), and in the absence of a `window` each returns `false`. -/
theorem claim9_nonbrowser_safe :
    (∀ g : GlobalEnv, isKasanova g = true ∨ isKasanova g = false)
    ∧ (∀ g : GlobalEnv, isKaswareAvailable g = true ∨ isKaswareAvailable g = false)
    ∧ (∀ g : GlobalEnv, isKasanovaL2Available g = true ∨ isKasanovaL2Available g = false)
    ∧ isKasanova GlobalEnv.noWindow = false
    ∧ isKaswareAvailable GlobalEnv.noWindow = false
    ∧ isKasanovaL2Available GlobalEnv.noWindow = false :=
  ⟨fun g => by cases h : isKasanova g
               · exact Or.inr rfl
               · exact Or.inl rfl,
   fun g => by cases h : isKaswareAvailable g
               · exact Or.inr rfl
               · exact Or.inl rfl,
   fun g => by cases h : isKasanovaL2Available g
               · exact Or.inr rfl
               · exact Or.inl rfl,
   rfl, rfl, rfl⟩

/-- C10: counterexample.  The two module versions are not observationally
equivalent: with an invalid-provider announcement (rdns `app.kasanova`,
provider missing `request`) followed by the timeout, the part_001
`waitForKasanovaL2` rejects (the announcement is ignored by the shape
check) while the detect.ts version resolves with the invalid provider —
opposite settlement classifications for the same environment and event
sequence. -/
theorem claim10_counterexample :
    (Part001.waitForL2Run 3000 emptyWindow emptyWindow []
        [.announce (some "app.kasanova") (some badL2), .timerFire emptyWindow]).result
      = some (.rejectedWith (Part001.l2TimeoutMsg 3000 none))
    ∧ (DetectTs.waitForL2Run emptyWindow []
        [.announce (some "app.kasanova") (some badL2), .timerFire emptyWindow]).result
      = some (.resolvedWith (some badL2))
    ∧ (some (Settlement.rejectedWith (Part001.l2TimeoutMsg 3000 none))
        ≠ some (Settlement.resolvedWith (some badL2))) := by
  refine ⟨rfl, rfl, ?_⟩
  intro h
  cases h

/-- C10 (amended): the two versions share the synchronous presence checks
and accessors verbatim and agree on the immediate-presence resolution value
and on the classification of the pure-timeout path, but they are not
observationally equivalent: the detect.ts waits lack the announcement shape
check, the post-registration re-check, timer cancellation on settlement,
and the duration-bearing diagnostic messages. -/
theorem claim10_amended :
    ∀ (t : Nat) (g0 g1 ge : GlobalEnv) (sync : List Ev) (o : Obj),
      (kaswareSlot g0 = some o →
        (Part001.waitForKaswareStart g0 g1).result = (DetectTs.waitForKaswareStart g0).result)
      ∧ (ethereumSlot g0 = some o → o.isKasanova = some true →
        (Part001.waitForL2Start t g0 g1 sync).result = (DetectTs.waitForL2Start g0 sync).result)
      ∧ (kaswareSlot g0 = none → hasKaswareShape (kaswareSlot g1) = false →
        ∃ m1 m2, (Part001.waitForKaswareRun t g0 g1 [.timerFire ge]).result
            = some (.rejectedWith m1)
          ∧ (DetectTs.waitForKaswareRun g0 [.timerFire ge]).result
            = some (.rejectedWith m2))
      ∧ (isKasanovaL2Available g0 = false → isKasanovaL2Available g1 = false →
        ∃ m1 m2, (Part001.waitForL2Run t g0 g1 [] [.timerFire ge]).result
            = some (.rejectedWith m1)
          ∧ (DetectTs.waitForL2Run g0 [] [.timerFire ge]).result
            = some (.rejectedWith m2)) := by
  intro t g0 g1 ge sync o
  refine ⟨fun h => ?_, fun h hf => ?_, fun h0 h1 => ?_, fun h0 h1 => ?_⟩
  · simp [Part001.waitForKaswareStart, DetectTs.waitForKaswareStart, h]
  · simp [Part001.waitForL2Start, DetectTs.waitForL2Start, h, hf]
  · refine ⟨Part001.l1TimeoutMsg t (kaswareSlot ge), DetectTs.l1TimeoutMsg, ?_, ?_⟩
    · show ([Ev.timerFire ge].foldl (Part001.waitForKaswareStep t)
        (Part001.waitForKaswareStart g0 g1)).result = _
      rw [p1_kasware_start_pending g0 g1 h0 h1]
      rfl
    · show ([Ev.timerFire ge].foldl DetectTs.waitForKaswareStep
        (DetectTs.waitForKaswareStart g0)).result = _
      rw [d_kasware_start_pending g0 h0]
      rfl
  · refine ⟨Part001.l2TimeoutMsg t (ethereumSlot ge), DetectTs.l2TimeoutMsg, ?_, ?_⟩
    · show ([Ev.timerFire ge].foldl (Part001.waitForL2Step t)
        (Part001.waitForL2Start t g0 g1 [])).result = _
      rw [p1_l2_start_pending t g0 g1 h0 h1]
      rfl
    · show ([Ev.timerFire ge].foldl DetectTs.waitForL2Step
        (DetectTs.waitForL2Start g0 [])).result = _
      rw [d_l2_start_pending g0 h0]
      rfl

/-- C10 (amended), witness: agreement of the two versions on the
immediate-presence value and on timeout-path classification at concrete
inputs. -/
theorem claim10_amended_witness :
    (Part001.waitForKaswareStart kaswareWindow emptyWindow).result
        = (DetectTs.waitForKaswareStart kaswareWindow).result
    ∧ (Part001.waitForL2Start 3000 l2Window emptyWindow []).result
        = (DetectTs.waitForL2Start l2Window []).result
    ∧ (∃ m1 m2, (Part001.waitForKaswareRun 3000 emptyWindow emptyWindow
            [.timerFire emptyWindow]).result = some (.rejectedWith m1)
        ∧ (DetectTs.waitForKaswareRun emptyWindow [.timerFire emptyWindow]).result
            = some (.rejectedWith m2)) :=
  ⟨(claim10_amended 3000 kaswareWindow emptyWindow emptyWindow [] goodKasware).1 rfl,
   (claim10_amended 3000 l2Window emptyWindow emptyWindow [] goodL2).2.1 rfl rfl,
   (claim10_amended 3000 emptyWindow emptyWindow emptyWindow [] goodKasware).2.2.1 rfl rfl⟩
